import Mathlib

/-!
Shallow embedding of the clipboard-history store of `src/src-tauri/src/core/database.rs`
(struct `Record`, struct `SqliteDB` and its `impl` block).  The SQLite table `record`
is modelled as a list of rows together with the `AUTOINCREMENT` counter; every
operation of the `impl` block becomes a pure Lean function on that state, with the
wall clock (`chrono::Local::now().timestamp_millis()`) passed in explicitly as a
`now : Nat` argument.  The helper module `string_util` is not part of the sources,
so its two functions are modelled from the spec (see their doc comments).
-/

namespace Lanaya

/-- Modelled from the spec: `string_util::md5` is not under `src/`.  The spec (§4.2)
describes it as a deterministic digest "used only as an equality/dedup key", with
"digest collisions are treated as content equality (accepted risk)".  A digest whose
equality coincides with content equality is therefore modelled by the identity map. -/
def string_util.md5 (s : String) : String := s

/-- Scanner behind the modelled highlighter: walks the content left to right and
wraps every occurrence of `q` with `<mark>…</mark>`.  Structurally recursive on a
fuel that bounds the number of content characters still to be consumed, so that it
evaluates by kernel reduction; `content.length` units suffice because every step
consumes at least one character when `q` is nonempty. -/
def highlightChars (q : List Char) : Nat → List Char → List Char
  | _, [] => []
  | 0, cs => cs
  | fuel + 1, c :: cs =>
      if q.isPrefixOf (c :: cs) then
        "<mark>".toList ++ q ++ "</mark>".toList ++
          highlightChars q fuel ((c :: cs).drop q.length)
      else c :: highlightChars q fuel cs

/-- Modelled from the spec: `string_util::highlight` is not under `src/`.  The spec
(§4.2) describes it as a pure function that "wraps every match occurrence with
markers"; the marker pair chosen here is `<mark>…</mark>`.  An empty query has no
occurrences, so the content is returned unchanged. -/
def string_util.highlight (query content : String) : String :=
  if query = "" then content
  else ⟨highlightChars query.toList content.toList.length content.toList⟩

/-- Mirror of `struct Record` (database.rs lines 9-18): `id`, `content`, `md5`,
`create_time`, `is_favorite`, plus the transient `content_highlight` that is only
used in search results. -/
structure Record where
  id : Nat
  content : String
  md5 : String
  create_time : Nat
  is_favorite : Bool
  content_highlight : Option String
  deriving Repr, DecidableEq

/-- Mirror of Rust's `Record::default()` (`#[derive(Default)]`): numeric fields 0,
strings empty, booleans false, options `None`. -/
def Record.default : Record :=
  { id := 0, content := "", md5 := "", create_time := 0, is_favorite := false,
    content_highlight := none }

/-- State of the `record` SQLite table owned by `SqliteDB`: the stored rows (in rowid
insertion order) and the `AUTOINCREMENT` counter, which never decreases and is not
reset by deletes, so ids are never reused. -/
structure SqliteDB where
  records : List Record
  next_id : Nat
  deriving Repr, DecidableEq

/-- Mirror of `SqliteDB::insert_record` (database.rs lines 55-63): the inserted row
stores the given `content`, an `md5` recomputed from the content, `create_time`
taken from the clock, and the caller's `is_favorite`; the input record's `md5` and
`create_time` fields are not read.  Returns the new state together with
`last_insert_rowid()`, the id assigned to the fresh row. -/
def insert_record (db : SqliteDB) (r : Record) (now : Nat) : SqliteDB × Nat :=
  let md5 := string_util.md5 r.content
  let row : Record :=
    { id := db.next_id, content := r.content, md5 := md5, create_time := now,
      is_favorite := r.is_favorite, content_highlight := none }
  ({ records := db.records ++ [row], next_id := db.next_id + 1 }, db.next_id)

/-- Mirror of `SqliteDB::find_record_by_md5` (database.rs lines 65-74): `query_row`
returns the first matching row or an error when there is none (modelled as
`Option`); the Rust closure populates only the `id` field and leaves the rest at
`Record::default()`. -/
def find_record_by_md5 (db : SqliteDB) (md5 : String) : Option Record :=
  (db.records.find? (fun r => r.md5 == md5)).map
    (fun r => { Record.default with id := r.id })

/-- Mirror of `SqliteDB::update_record_create_time` (database.rs lines 77-83):
`update record set create_time = now where id = r.id`. -/
def update_record_create_time (db : SqliteDB) (r : Record) (now : Nat) : SqliteDB :=
  { db with
    records := db.records.map
      (fun s => if s.id = r.id then { s with create_time := now } else s) }

/-- Mirror of `SqliteDB::insert_if_not_exist` (database.rs lines 85-96): look up the
content's md5; on a hit refresh that record's `create_time`, on a miss insert. -/
def insert_if_not_exist (db : SqliteDB) (r : Record) (now : Nat) : SqliteDB :=
  match find_record_by_md5 db (string_util.md5 r.content) with
  | some res => update_record_create_time db res now
  | none => (insert_record db r now).1

/-- The spec's `insert_or_touch(content)` (§4.1) is `insert_if_not_exist` applied to
a record carrying the captured text and default remaining fields, as in the callers
and the in-file test (database.rs lines 193-203, `..Default::default()`). -/
def insert_or_touch (db : SqliteDB) (content : String) (now : Nat) : SqliteDB :=
  insert_if_not_exist db { Record.default with content := content } now

/-- Mirror of `SqliteDB::clear_data` (database.rs lines 99-103): `delete from record`.
The `AUTOINCREMENT` counter survives the delete. -/
def clear_data (db : SqliteDB) : SqliteDB :=
  { db with records := [] }

/-- Mirror of `SqliteDB::mark_favorite` (database.rs lines 106-110):
`update record set is_favorite = 1 where id = ?1`; affecting zero rows is not an
error. -/
def mark_favorite (db : SqliteDB) (id : Nat) : SqliteDB :=
  { db with
    records := db.records.map
      (fun s => if s.id = id then { s with is_favorite := true } else s) }

/-- Ordering used by `order by create_time desc`: `a` comes before `b` when
`a.create_time ≥ b.create_time`. -/
def createTimeDesc (a b : Record) : Prop := b.create_time ≤ a.create_time

instance : DecidableRel createTimeDesc := fun a b => Nat.decLe b.create_time a.create_time

instance : IsTotal Record createTimeDesc :=
  ⟨fun a b => Nat.le_total b.create_time a.create_time⟩

instance : IsTrans Record createTimeDesc :=
  ⟨fun _ _ _ h1 h2 => le_trans h2 h1⟩

/-- Row reconstruction shared by the query methods: each returned `Record` is rebuilt
from the five table columns, with `content_highlight` set to `None`. -/
def rowRecord (r : Record) : Record :=
  { id := r.id, content := r.content, md5 := r.md5, create_time := r.create_time,
    is_favorite := r.is_favorite, content_highlight := none }

/-- Mirror of `SqliteDB::find_all` (database.rs lines 112-129):
`SELECT … FROM record order by create_time desc`, each row rebuilt with
`content_highlight: None`. -/
def find_all (db : SqliteDB) : List Record :=
  (db.records.insertionSort createTimeDesc).map rowRecord

/-- SQLite folds only the ASCII letters A-Z for its default case-insensitive `LIKE`. -/
def asciiLower (c : Char) : Char :=
  if 'A' ≤ c ∧ c ≤ 'Z' then Char.ofNat (c.toNat + 32) else c

/-- Character comparison of SQLite `LIKE`: ASCII-case-insensitive equality. -/
def likeChar (p c : Char) : Bool := asciiLower p == asciiLower c

/-- Matcher for SQLite `LIKE`: `%` matches any sequence, `_` matches any single
character, anything else matches ASCII-case-insensitively.  Structurally recursive
on an explicit fuel so that it evaluates by kernel reduction; every step consumes
one unit of fuel and shortens `pattern ++ s`, so `length pattern + length s + 1`
units always suffice (see `sqlLike`). -/
def likeGo : Nat → List Char → List Char → Bool
  | 0, _, _ => false
  | _ + 1, [], [] => true
  | _ + 1, [], _ :: _ => false
  | fuel + 1, '%' :: ps, cs =>
      likeGo fuel ps cs ||
        (match cs with
         | [] => false
         | _ :: cs2 => likeGo fuel ('%' :: ps) cs2)
  | _ + 1, '_' :: _, [] => false
  | fuel + 1, '_' :: ps, _ :: cs => likeGo fuel ps cs
  | _ + 1, _ :: _, [] => false
  | fuel + 1, p :: ps, c :: cs => likeChar p c && likeGo fuel ps cs

/-- Evaluation of `sqlLike pat s`: SQLite's `s LIKE pat` with the default (no `ESCAPE`,
`case_sensitive_like` off) semantics. -/
def sqlLike (pat s : String) : Bool :=
  likeGo (pat.length + s.length + 1) pat.toList s.toList

/-- Mirror of `SqliteDB::find_by_key` (database.rs lines 131-150):
`… where content like '%key%' order by create_time desc limit ?2`.  For each row the
Rust code computes `content_highlight` from `string_util::highlight` into a local
binding but then builds the `Record` with `content_highlight: None`, leaving the
computed value unused; the dead binding is reproduced here. -/
def find_by_key (db : SqliteDB) (key : String) (limit : Nat) : List Record :=
  let pat := "%" ++ key ++ "%"
  ((((db.records.filter (fun r => sqlLike pat r.content)).insertionSort
      createTimeDesc).take limit).map
    (fun r =>
      let content := r.content
      let contentHighlight := some (string_util.highlight key content)
      { id := r.id, content := content, md5 := r.md5, create_time := r.create_time,
        is_favorite := r.is_favorite, content_highlight := none }))

/-- Mirror of `SqliteDB::delete_over_limit` (database.rs lines 180-190).  The Rust
code prepares `SELECT count(*) FROM record` but never executes it: it reads
`stmt.column_count()`, the number of result columns of the prepared statement,
which is 1 for this query.  That value is compared against `50 + limit`; when it is
smaller the method returns early, otherwise it deletes every row but the `limit`
largest ids (`ORDER BY id DESC LIMIT ?1, 1000000000` skips the first `limit` ids
and selects up to 1000000000 of the rest). -/
def delete_over_limit (db : SqliteDB) (limit : Nat) : SqliteDB :=
  let count := 1
  if count < 50 + limit then db
  else
    let doomed :=
      (((db.records.map Record.id).insertionSort (fun a b => b ≤ a)).drop limit).take
        1000000000
    { db with records := db.records.filter (fun r => !(doomed.contains r.id)) }

/-- Spec-side predicate, for comparison with the code's `LIKE` filter: `q` occurs in
`s` as a literal substring ("contains `query` as a literal substring", spec §4.1). -/
def literalSubstring (q s : String) : Bool :=
  (List.range (s.toList.length + 1)).any (fun i => q.toList.isPrefixOf (s.toList.drop i))

/-- Well-formedness of the `AUTOINCREMENT` counter: every stored row's id is below
the next id to be assigned.  Holds for every table SQLite builds and is preserved
by all operations. -/
def idsBelowNext (db : SqliteDB) : Prop := ∀ r ∈ db.records, r.id < db.next_id

/-- Store of 151 rows with ids 1..151, used as a concrete overfull store. -/
def store151 : SqliteDB :=
  { records := (List.range 151).map (fun i =>
      { id := i + 1, content := toString (i + 1), md5 := toString (i + 1),
        create_time := i + 1, is_favorite := false, content_highlight := none }),
    next_id := 152 }

/-- Store holding the single row `"abc"`, used as a concrete search target. -/
def dbAbc : SqliteDB :=
  { records := [{ id := 1, content := "abc", md5 := "abc", create_time := 7,
                  is_favorite := false, content_highlight := none }],
    next_id := 2 }

/-- A map that fixes every element of a list leaves the list unchanged. -/
theorem map_id_of_mem {α : Type} {l : List α} {f : α → α} (h : ∀ x ∈ l, f x = x) :
    l.map f = l := by
  induction l with
  | nil => rfl
  | cons a t ih => simp only [List.map_cons, h a (List.mem_cons_self a t),
      ih (fun x hx => h x (List.mem_cons_of_mem a hx))]

/-- The guard of `delete_over_limit` compares the column count 1 of the prepared
`SELECT count(*)` statement with `50 + limit`, which is always larger, so the
method always takes the early `return Ok(())` and the store is never touched. -/
theorem delete_over_limit_eq (db : SqliteDB) (limit : Nat) :
    delete_over_limit db limit = db := by
  have h : 1 < 50 + limit := by omega
  simp [delete_over_limit, h]

/-- Claim C5: for every limit value and every store state, `delete_over_limit`
succeeds and leaves every stored record unchanged, because its guard compares the
count statement's column count (always 1) against `50 + limit` and so never
reaches the delete statement. -/
theorem delete_over_limit_is_noop (db : SqliteDB) (limit : Nat) :
    delete_over_limit db limit = db :=
  delete_over_limit_eq db limit

/-- Claim C1 (code bug): a store of 151 rows exceeds capacity 100 by more than the
margin 50, yet `delete_over_limit 100` leaves the store unchanged at 151 rows
instead of trimming it to exactly 100: the guard reads `stmt.column_count()` of
the prepared count query — which is 1 — instead of executing the query, so the
eviction described by the spec never runs. -/
theorem evict_overflow_guard_bug :
    delete_over_limit store151 100 = store151 ∧
      store151.records.length = 151 ∧ (151 = 100) = False :=
  ⟨delete_over_limit_eq store151 100, by simp [store151], by simp⟩

/-- Claim C2 (code bug): searching `"a"` over a store holding `"abc"` returns the
row with `content` unchanged but `content_highlight = none`: `find_by_key` computes
the highlight into a local binding and then constructs the returned record with
`content_highlight: None`, discarding it, while the highlighter itself would have
produced the marked text `"<mark>a</mark>bc"`. -/
theorem search_highlight_discarded :
    find_by_key dbAbc "a" 10 =
      [{ id := 1, content := "abc", md5 := "abc", create_time := 7,
         is_favorite := false, content_highlight := none }] ∧
      string_util.highlight "a" "abc" = "<mark>a</mark>bc" := by
  constructor
  · decide
  · rfl

/-- Claim C10: the stored row of `insert_record` carries an md5 recomputed from the
input's `content` and a `create_time` read from the clock; the `md5` and
`create_time` fields of the input record have no effect on the result, and the
returned rowid is the id assigned to the new row. -/
theorem insert_record_recomputes_fields (db : SqliteDB) (r : Record) (m : String)
    (t now : Nat) :
    insert_record db { r with md5 := m, create_time := t } now = insert_record db r now ∧
      (insert_record db r now).1.records =
        db.records ++
          [{ id := db.next_id, content := r.content, md5 := string_util.md5 r.content,
             create_time := now, is_favorite := r.is_favorite,
             content_highlight := none }] ∧
      (insert_record db r now).2 = db.next_id :=
  ⟨rfl, rfl, rfl⟩

/-- Claim C8: `mark_favorite` on an id with no matching stored record succeeds and
leaves every stored record unchanged (the SQL update affects zero rows). -/
theorem mark_favorite_absent_noop (db : SqliteDB) (i : Nat)
    (h : ∀ r ∈ db.records, r.id ≠ i) : mark_favorite db i = db := by
  have hmap :
      db.records.map (fun s => if s.id = i then { s with is_favorite := true } else s) =
        db.records :=
    map_id_of_mem (fun s hs => if_neg (h s hs))
  simp [mark_favorite, hmap]

/-- Witness for claim C8 at a concrete input: id 5 is absent from `dbAbc`. -/
theorem mark_favorite_absent_noop_witness : mark_favorite dbAbc 5 = dbAbc :=
  mark_favorite_absent_noop dbAbc 5 (by decide)

/-- Fresh-content insert: when no stored row's md5 matches the content's md5,
`insert_or_touch` appends one new row carrying the next id, the content, its md5,
the clock value and `is_favorite = false`, and bumps the id counter. -/
theorem insert_or_touch_fresh (db : SqliteDB) (c : String) (now : Nat)
    (habs : ∀ r ∈ db.records, r.md5 ≠ string_util.md5 c) :
    insert_or_touch db c now =
      { records := db.records ++
          [{ id := db.next_id, content := c, md5 := string_util.md5 c,
             create_time := now, is_favorite := false, content_highlight := none }],
        next_id := db.next_id + 1 } := by
  have hfind : db.records.find? (fun s => s.md5 == string_util.md5 c) = none :=
    List.find?_eq_none.2 (fun x hx => by simpa using habs x hx)
  simp [insert_or_touch, insert_if_not_exist, find_record_by_md5, hfind,
    insert_record, Record.default]

/-- Claim C6: on content whose fingerprint matches no stored record,
`insert_or_touch` creates exactly one new record with a fresh id (not carried by
any existing row), the given content, its fingerprint, `create_time` equal to the
clock and `is_favorite = false`. -/
theorem insert_fresh_creates (db : SqliteDB) (c : String) (now : Nat)
    (hwf : idsBelowNext db)
    (habs : ∀ r ∈ db.records, r.md5 ≠ string_util.md5 c) :
    insert_or_touch db c now =
      { records := db.records ++
          [{ id := db.next_id, content := c, md5 := string_util.md5 c,
             create_time := now, is_favorite := false, content_highlight := none }],
        next_id := db.next_id + 1 } ∧
      db.next_id ∉ db.records.map Record.id := by
  refine ⟨insert_or_touch_fresh db c now habs, fun hmem => ?_⟩
  obtain ⟨r, hr, hid⟩ := List.mem_map.1 hmem
  exact absurd hid (Nat.ne_of_lt (hwf r hr))

/-- Witness for claim C6 at a concrete input: inserting `"hi"` into the empty
store. -/
theorem insert_fresh_creates_witness :
    insert_or_touch { records := [], next_id := 1 } "hi" 3 =
      { records := [{ id := 1, content := "hi", md5 := "hi", create_time := 3,
                      is_favorite := false, content_highlight := none }],
        next_id := 2 } ∧
      (1 : Nat) ∉ (([] : List Record).map Record.id) :=
  insert_fresh_creates { records := [], next_id := 1 } "hi" 3
    (fun r hr => nomatch hr) (fun r hr => nomatch hr)

/-- Claim C3: inserting the same content twice (first at time `t1`, then at `t2`)
into a store that holds no record with that fingerprint leaves exactly one stored
record with that fingerprint; its id is the one assigned by the first call
(`db.next_id`) and its `create_time` is the time of the second call. -/
theorem insert_twice_dedup (db : SqliteDB) (c : String) (t1 t2 : Nat)
    (hwf : idsBelowNext db)
    (habs : ∀ r ∈ db.records, r.md5 ≠ string_util.md5 c) :
    (insert_or_touch (insert_or_touch db c t1) c t2).records.filter
        (fun r => r.md5 == string_util.md5 c) =
      [{ id := db.next_id, content := c, md5 := string_util.md5 c, create_time := t2,
         is_favorite := false, content_highlight := none }] := by
  rw [insert_or_touch_fresh db c t1 habs]
  have hfindl : db.records.find? (fun s => s.md5 == string_util.md5 c) = none :=
    List.find?_eq_none.2 (fun x hx => by simpa using habs x hx)
  have hmap : db.records.map
      (fun s => if s.id = db.next_id then { s with create_time := t2 } else s) =
        db.records :=
    map_id_of_mem (fun s hs => if_neg (Nat.ne_of_lt (hwf s hs)))
  have hfilter : db.records.filter (fun s => s.md5 == string_util.md5 c) = [] :=
    List.filter_eq_nil_iff.2 (fun s hs => by simpa using habs s hs)
  simp [insert_or_touch, insert_if_not_exist, find_record_by_md5, List.find?_append,
    hfindl, update_record_create_time, Record.default, hmap, hfilter,
    List.filter_append]

/-- Witness for claim C3 at a concrete input: inserting `"a"` twice into the empty
store. -/
theorem insert_twice_dedup_witness :
    (insert_or_touch (insert_or_touch { records := [], next_id := 1 } "a" 1) "a" 2).records.filter
        (fun r => r.md5 == string_util.md5 "a") =
      [{ id := 1, content := "a", md5 := "a", create_time := 2, is_favorite := false,
         content_highlight := none }] :=
  insert_twice_dedup { records := [], next_id := 1 } "a" 1 2
    (fun r hr => nomatch hr) (fun r hr => nomatch hr)

/-- Rebuilding a row from its five table columns is the identity on rows whose
transient highlight field is empty. -/
theorem rowRecord_eq_self {r : Record} (h : r.content_highlight = none) :
    rowRecord r = r := by
  cases r
  simp_all [rowRecord]

/-- Store of two rows with distinct `create_time`, used as a concrete input. -/
def dbTwo : SqliteDB :=
  { records := [{ id := 1, content := "a", md5 := "a", create_time := 3,
                  is_favorite := false, content_highlight := none },
                { id := 2, content := "b", md5 := "b", create_time := 9,
                  is_favorite := true, content_highlight := none }],
    next_id := 3 }

/-- Claim C9: `find_all` returns every stored record (a permutation of the store)
and the returned sequence is pairwise non-increasing in `create_time`. -/
theorem find_all_complete_sorted (db : SqliteDB)
    (hclean : ∀ r ∈ db.records, r.content_highlight = none) :
    (find_all db).Perm db.records ∧ List.Pairwise createTimeDesc (find_all db) := by
  have hmap : (db.records.insertionSort createTimeDesc).map rowRecord =
      db.records.insertionSort createTimeDesc :=
    map_id_of_mem (fun x hx =>
      rowRecord_eq_self (hclean x ((List.mem_insertionSort createTimeDesc).1 hx)))
  constructor
  · rw [find_all, hmap]
    exact List.perm_insertionSort createTimeDesc db.records
  · rw [find_all, hmap]
    exact List.sorted_insertionSort createTimeDesc db.records

/-- Witness for claim C9 at a concrete input: the two-row store `dbTwo`. -/
theorem find_all_complete_sorted_witness :
    (find_all dbTwo).Perm dbTwo.records ∧
      List.Pairwise createTimeDesc (find_all dbTwo) :=
  find_all_complete_sorted dbTwo (by decide)

/-- A bare `%` pattern accepts every string, given enough fuel. -/
theorem likeGo_pct (cs : List Char) (fuel : Nat) (h : cs.length + 2 ≤ fuel) :
    likeGo fuel ['%'] cs = true := by
  induction cs generalizing fuel with
  | nil =>
    rcases fuel with _ | (_ | g)
    · omega
    · omega
    · rfl
  | cons c cs ih =>
    rcases fuel with _ | (_ | g)
    · omega
    · omega
    · have hlen : cs.length + 2 ≤ g + 1 := by
        simp only [List.length_cons] at h
        omega
      have step : likeGo (g + 1 + 1) ['%'] (c :: cs) =
          (likeGo (g + 1) [] (c :: cs) || likeGo (g + 1) ['%'] cs) := rfl
      rw [step, ih (g + 1) hlen]
      rfl

/-- The pattern `%%` (a `LIKE` filter for the empty query) accepts every string,
given enough fuel. -/
theorem likeGo_pct_pct (cs : List Char) (fuel : Nat) (h : cs.length + 3 ≤ fuel) :
    likeGo fuel ['%', '%'] cs = true := by
  rcases fuel with _ | f
  · omega
  · have h1 : likeGo f ['%'] cs = true := likeGo_pct cs f (by omega)
    cases cs with
    | nil =>
      show (likeGo f ['%'] [] || false) = true
      rw [h1]
      rfl
    | cons c cs2 =>
      show (likeGo f ['%'] (c :: cs2) || likeGo f ['%', '%'] cs2) = true
      rw [h1]
      rfl

/-- The empty query's `LIKE` pattern `%%` matches every content string. -/
theorem sqlLike_empty_query (s : String) : sqlLike "%%" s = true := by
  have heq : s.toList.length = s.length := rfl
  have hpat : "%%".length = 2 := rfl
  exact likeGo_pct_pct s.toList ("%%".length + s.length + 1) (by omega)

/-- Claim C4 (amended): every record returned by `find_by_key` has content
accepted by the SQL `LIKE` pattern `%query%` (ASCII-case-insensitive, `%` and `_`
acting as wildcards) rather than literal substring containment; at most `limit`
records are returned, pairwise non-increasing in `create_time`; and the empty
query matches every record, bounded by `limit`. -/
theorem search_like_correct (db : SqliteDB) (q : String) (n : Nat) :
    (∀ r ∈ find_by_key db q n, sqlLike ("%" ++ q ++ "%") r.content = true) ∧
      (find_by_key db q n).length ≤ n ∧
      List.Pairwise createTimeDesc (find_by_key db q n) ∧
      (q = "" → (find_by_key db q n).length = min n db.records.length) := by
  refine ⟨?_, ?_, ?_, ?_⟩
  · intro r hr
    simp only [find_by_key] at hr
    obtain ⟨s, hs, rfl⟩ := List.mem_map.1 hr
    have hs2 := List.take_subset _ _ hs
    have hs3 := (List.mem_insertionSort createTimeDesc).1 hs2
    exact (List.mem_filter.1 hs3).2
  · simp only [find_by_key, List.length_map, List.length_take]
    exact min_le_left _ _
  · simp only [find_by_key]
    rw [List.pairwise_map]
    exact List.Pairwise.sublist (List.take_sublist _ _)
      (List.sorted_insertionSort createTimeDesc _)
  · intro hq
    subst hq
    have hfil : db.records.filter (fun r => sqlLike "%%" r.content) =
        db.records :=
      List.filter_eq_self.2 (fun a _ => sqlLike_empty_query a.content)
    simp [find_by_key, hfil, List.length_take, List.length_insertionSort]

/-- Witness for the amended claim C4 at a concrete input: the empty query over
`dbAbc`, bounded by 2. -/
theorem search_like_correct_witness :
    (find_by_key dbAbc "" 2).length = min 2 dbAbc.records.length :=
  (search_like_correct dbAbc "" 2).2.2.2 rfl

/-- Claim C4 (counterexample): over the store holding `"abc"`, searching for the
query `"A"` returns that record even though `"A"` does not occur in `"abc"` as a
literal substring — SQL `LIKE` is ASCII-case-insensitive. -/
theorem search_literal_substring_cex :
    (find_by_key dbAbc "A" 10).map Record.content = ["abc"] ∧
      literalSubstring "A" "abc" = false := by
  constructor
  · decide
  · decide

/-- The state-changing operations of the store, as invoked by the capture pipeline
and the UI layer; the read-only queries (`find_all`, `find_by_key`) do not change
the state. -/
inductive Op where
  | touch : String → Nat → Op
  | favorite : Nat → Op
  | clear : Op
  | evict : Nat → Op

/-- Run one operation against the store. -/
def applyOp (db : SqliteDB) : Op → SqliteDB
  | .touch c now => insert_or_touch db c now
  | .favorite i => mark_favorite db i
  | .clear => clear_data db
  | .evict limit => delete_over_limit db limit

/-- Run a sequence of operations against the store. -/
def applyOps (db : SqliteDB) (ops : List Op) : SqliteDB := ops.foldl applyOp db

/-- Record with the given id, once favorited, reads as favorite: every stored row
carrying id `i` has `is_favorite = true`. -/
def favTrue (db : SqliteDB) (i : Nat) : Prop :=
  ∀ s ∈ db.records, s.id = i → s.is_favorite = true

/-- Mapping an id-preserving function over the rows keeps every id below the
counter. -/
theorem idsBelowNext_map_pres (db : SqliteDB) (f : Record → Record)
    (hf : ∀ s, (f s).id = s.id) (h : idsBelowNext db) :
    idsBelowNext { db with records := db.records.map f } := by
  intro s hs
  obtain ⟨x, hx, rfl⟩ := List.mem_map.1 hs
  simpa [hf x] using h x hx

/-- Mapping an id-preserving, favorite-preserving function over the rows keeps a
favorited id favorited. -/
theorem favTrue_map_pres (db : SqliteDB) (i : Nat) (f : Record → Record)
    (hid : ∀ s, (f s).id = s.id)
    (hfav : ∀ s, s.is_favorite = true → (f s).is_favorite = true)
    (h : favTrue db i) : favTrue { db with records := db.records.map f } i := by
  intro s hs hsi
  obtain ⟨x, hx, rfl⟩ := List.mem_map.1 hs
  refine hfav x (h x hx ?_)
  rw [← hid x]
  exact hsi

/-- An `insert_if_not_exist` keeps every id below the counter. -/
theorem idsBelowNext_insert_if_not_exist (db : SqliteDB) (r : Record) (now : Nat)
    (h : idsBelowNext db) : idsBelowNext (insert_if_not_exist db r now) := by
  unfold insert_if_not_exist
  cases find_record_by_md5 db (string_util.md5 r.content) with
  | some res =>
    exact idsBelowNext_map_pres db _
      (fun s => by by_cases hs : s.id = res.id <;> simp [hs]) h
  | none =>
    intro s hs
    simp only [insert_record, List.mem_append, List.mem_singleton] at hs
    rcases hs with hs | rfl
    · exact Nat.lt_succ_of_lt (h s hs)
    · exact Nat.lt_succ_self _

/-- An `insert_if_not_exist` never lowers the id counter. -/
theorem next_id_le_insert_if_not_exist (db : SqliteDB) (r : Record) (now : Nat) :
    db.next_id ≤ (insert_if_not_exist db r now).next_id := by
  unfold insert_if_not_exist
  cases find_record_by_md5 db (string_util.md5 r.content) with
  | some res => exact Nat.le_refl _
  | none => exact Nat.le_succ _

/-- An `insert_if_not_exist` keeps a favorited id (below the counter) favorited: a
touch only rewrites `create_time`, and a fresh row gets an id that the favorited
id cannot equal. -/
theorem favTrue_insert_if_not_exist (db : SqliteDB) (r : Record) (now : Nat)
    (i : Nat) (hi : i < db.next_id) (h : favTrue db i) :
    favTrue (insert_if_not_exist db r now) i := by
  unfold insert_if_not_exist
  cases find_record_by_md5 db (string_util.md5 r.content) with
  | some res =>
    exact favTrue_map_pres db i _
      (fun s => by by_cases hs : s.id = res.id <;> simp [hs])
      (fun s hfav => by by_cases hs : s.id = res.id <;> simp [hs, hfav]) h
  | none =>
    intro s hs hsi
    simp only [insert_record, List.mem_append, List.mem_singleton] at hs
    rcases hs with hs | rfl
    · exact h s hs hsi
    · exact absurd hsi (Nat.ne_of_gt hi)

/-- Every operation keeps all stored ids below the counter. -/
theorem idsBelowNext_applyOp (db : SqliteDB) (o : Op) (h : idsBelowNext db) :
    idsBelowNext (applyOp db o) := by
  cases o with
  | touch c now => exact idsBelowNext_insert_if_not_exist db _ now h
  | favorite j =>
    exact idsBelowNext_map_pres db _
      (fun s => by by_cases hs : s.id = j <;> simp [hs]) h
  | clear => exact fun s hs => nomatch hs
  | evict limit =>
    show idsBelowNext (delete_over_limit db limit)
    rw [delete_over_limit_eq]
    exact h

/-- No operation lowers the id counter (ids are never reused). -/
theorem next_id_le_applyOp (db : SqliteDB) (o : Op) :
    db.next_id ≤ (applyOp db o).next_id := by
  cases o with
  | touch c now => exact next_id_le_insert_if_not_exist db _ now
  | favorite j => exact Nat.le_refl _
  | clear => exact Nat.le_refl _
  | evict limit =>
    show db.next_id ≤ (delete_over_limit db limit).next_id
    rw [delete_over_limit_eq]

/-- Every operation keeps a favorited id (below the counter) favorited. -/
theorem favTrue_applyOp (db : SqliteDB) (i : Nat) (o : Op)
    (hi : i < db.next_id) (h : favTrue db i) : favTrue (applyOp db o) i := by
  cases o with
  | touch c now => exact favTrue_insert_if_not_exist db _ now i hi h
  | favorite j =>
    exact favTrue_map_pres db i _
      (fun s => by by_cases hs : s.id = j <;> simp [hs])
      (fun s hfav => by by_cases hs : s.id = j <;> simp [hs, hfav]) h
  | clear => exact fun s hs => nomatch hs
  | evict limit =>
    show favTrue (delete_over_limit db limit) i
    rw [delete_over_limit_eq]
    exact h

/-- Any sequence of operations keeps a favorited id favorited. -/
theorem favTrue_applyOps (db : SqliteDB) (i : Nat) (ops : List Op)
    (hwf : idsBelowNext db) (hi : i < db.next_id) (h : favTrue db i) :
    favTrue (applyOps db ops) i := by
  induction ops generalizing db with
  | nil => exact h
  | cons o t ih =>
    exact ih (applyOp db o) (idsBelowNext_applyOp db o hwf)
      (Nat.lt_of_lt_of_le hi (next_id_le_applyOp db o))
      (favTrue_applyOp db i o hi h)

/-- Running `mark_favorite i` establishes the favorite flag on every row carrying id `i`. -/
theorem favTrue_mark_favorite (db : SqliteDB) (i : Nat) :
    favTrue (mark_favorite db i) i := by
  intro s hs hsi
  simp only [mark_favorite] at hs
  obtain ⟨x, hx, rfl⟩ := List.mem_map.1 hs
  by_cases hxi : x.id = i
  · rw [if_pos hxi]
  · rw [if_neg hxi] at hsi
    exact absurd hsi hxi

/-- Claim C7: for a record id present in the store, once `mark_favorite id` has
run, every stored row carrying that id reads `is_favorite = true` after any
subsequent sequence of operations (touches, repeated favorite markings, clears,
evictions; the read-only queries do not change the state), until the record is
deleted; no operation resets the flag. -/
theorem mark_favorite_monotone (db : SqliteDB) (i : Nat) (ops : List Op)
    (hwf : idsBelowNext db) (hpres : ∃ r ∈ db.records, r.id = i) :
    ∀ s ∈ (applyOps (mark_favorite db i) ops).records, s.id = i →
      s.is_favorite = true := by
  obtain ⟨r, hr, hri⟩ := hpres
  have hi : i < db.next_id := hri ▸ hwf r hr
  have hwf2 : idsBelowNext (mark_favorite db i) :=
    idsBelowNext_map_pres db _ (fun s => by by_cases hs : s.id = i <;> simp [hs]) hwf
  have hi2 : i < (mark_favorite db i).next_id := hi
  exact favTrue_applyOps (mark_favorite db i) i ops hwf2 hi2
    (favTrue_mark_favorite db i)

/-- Single-row store used as the favorite-monotonicity witness input. -/
def dbW1 : SqliteDB :=
  { records := [{ id := 1, content := "a", md5 := "a", create_time := 1,
                  is_favorite := false, content_highlight := none }],
    next_id := 2 }

/-- Concrete operation sequence for the favorite-monotonicity witness: a touch of
new content, a repeated favorite marking and an eviction pass. -/
def opsW : List Op := [Op.touch "zz" 5, Op.favorite 1, Op.evict 0]

/-- Witness for claim C7 at a concrete input: after favoriting id 1 in `dbW1` and
running `opsW`, the stored row with id 1 still reads `is_favorite = true`. -/
theorem mark_favorite_monotone_witness :
    ({ id := 1, content := "a", md5 := "a", create_time := 1, is_favorite := true,
       content_highlight := none } : Record).is_favorite = true :=
  mark_favorite_monotone dbW1 1 opsW (by unfold idsBelowNext; decide)
    ⟨{ id := 1, content := "a", md5 := "a", create_time := 1, is_favorite := false,
       content_highlight := none }, by decide, rfl⟩
    { id := 1, content := "a", md5 := "a", create_time := 1, is_favorite := true,
      content_highlight := none } (by decide) rfl

end Lanaya
